import Mathlib

/-!
Verification development for `uvcond` (`uvcond/__main__.py`), a CLI that
manages named Python virtual environments and TOML "recipe" files.

The Python source is shallowly embedded: pure string manipulation becomes
Lean functions over `String`/`List Char`; filesystem state becomes an
explicit `FS` record threaded through the command handlers; subprocess
results and interactive input become explicit oracle parameters; console
output channels and external process invocations become effect lists.
Python string methods (`strip`, `split`, `lower`, `join`, `replace`,
`startswith`) are modelled by the `py*` helpers below, defined over the
character list of the string so that everything evaluates by kernel
reduction.
-/

/-- Whitespace characters stripped by Python `str.strip()`. -/
def pyIsSpace (c : Char) : Bool :=
  c = ' ' || c = '\t' || c = '\n' || c = '\x0d' || c = '\x0c' || c = '\x0b'

/-- Model of Python `str.strip()`: drop leading and trailing whitespace. -/
def pyStrip (s : String) : String :=
  String.mk (((s.toList.dropWhile pyIsSpace).reverse.dropWhile pyIsSpace).reverse)

/-- ASCII lowercasing of one character (model of `str.lower` per character). -/
def lowerChar (c : Char) : Char :=
  if 'A' ≤ c ∧ c ≤ 'Z' then Char.ofNat (c.toNat + 32) else c

/-- Model of Python `str.lower()` (ASCII range, which is all the source uses). -/
def pyLower (s : String) : String :=
  String.mk (s.toList.map lowerChar)

/-- Model of Python `str.startswith(p)`. -/
def pyStartsWith (s p : String) : Bool :=
  p.toList.isPrefixOf s.toList

/-- Splitting worker over character lists; `fuel` bounds the recursion and is
always instantiated with the length of the input plus one, which suffices. -/
def pySplitAux (sep : List Char) (fuel : Nat) (acc : List Char) (cs : List Char) :
    List (List Char) :=
  match fuel with
  | 0 => [acc.reverse ++ cs]
  | fuel + 1 =>
    if sep ≠ [] ∧ sep.isPrefixOf cs then
      acc.reverse :: pySplitAux sep fuel [] (cs.drop sep.length)
    else
      match cs with
      | [] => [acc.reverse]
      | c :: rest => pySplitAux sep fuel (c :: acc) rest

/-- Model of Python `str.split(sep)` with a non-empty separator. -/
def pySplit (s sep : String) : List String :=
  (pySplitAux sep.toList (s.toList.length + 1) [] s.toList).map String.mk

/-- Model of Python `sep.join(parts)`. -/
def pyJoin (sep : String) : List String → String
  | [] => ""
  | [x] => x
  | x :: xs => x ++ sep ++ pyJoin sep xs

/-- Model of Python `str.split(sep, 1)` (at most one split). -/
def pySplit1 (s sep : String) : List String :=
  match pySplit s sep with
  | [] => []
  | [x] => [x]
  | x :: rest => [x, pyJoin sep rest]

/-- Model of Python `str.replace(t, r)`. -/
def pyReplace (s t r : String) : String :=
  pyJoin r (pySplit s t)

/-- First fragment of a split, `s.split(sep)[0]` (the split list is never
empty, so index 0 always exists; the default is never used). -/
def pySplitHead (s sep : String) : String :=
  (pySplit s sep).headD s

/-- Python truthiness of an optional string: present and non-empty. -/
def truthyStr : Option String → Bool
  | some v => !(v == "")
  | none => false

/-- Model of Python `a or b` on optional strings (empty string is falsy). -/
def pyOrStr (a b : Option String) : Option String :=
  if truthyStr a then a else b

/-! ## The recipe data model

`write_recipe_toml` serializes a dict with keys `name`, `python`,
`description`, `deps.packages`, `deps.pinned`, `post_install.commands`;
each key may be absent. We model that dict shape directly. -/

/-- The `deps` sub-table of a recipe (`packages`, `pinned`). -/
structure Deps where
  packages : Option (List String)
  pinned : Option (List String)
deriving DecidableEq, Repr

/-- The `post_install` sub-table of a recipe (`commands`). -/
structure PostInstall where
  commands : Option (List String)
deriving DecidableEq, Repr

/-- The recipe record persisted by `write_recipe_toml` and recovered by
`read_recipe_toml`. -/
structure Recipe where
  name : Option String
  python : Option String
  description : Option String
  deps : Option Deps
  post_install : Option PostInstall
deriving DecidableEq, Repr

/-! ## TOML value writer (`_toml_value`) -/

/-- Python values handled by `_toml_value` (floats are not exercised by the
program and are omitted). -/
inductive PyVal where
  | vstr (s : String)
  | vbool (b : Bool)
  | vint (n : Int)
  | vlist (l : List PyVal)
deriving Repr

/-- Whether a `PyVal` is a string (`isinstance(v, str)`). -/
def PyVal.isStr : PyVal → Bool
  | .vstr _ => true
  | _ => false

/-- Length contribution of one list item in the `_toml_value` line-length
check; the check is only consulted when every item is a string. -/
def PyVal.strLen : PyVal → Nat
  | .vstr s => s.toList.length
  | _ => 0

mutual

/-- Model of `_toml_value`: format a Python value as a TOML value. -/
def toml_value : PyVal → String
  | .vstr v =>
    if v.toList.contains '\n' then
      "\"\"\"\n" ++ v ++ "\n\"\"\""
    else
      "\"" ++ pyReplace (pyReplace v "\\" "\\\\") "\"" "\\\"" ++ "\""
  | .vbool b => if b then "true" else "false"
  | .vint n => toString n
  | .vlist l =>
    if l.length = 0 then "[]"
    else if l.all PyVal.isStr ∧ (l.map PyVal.strLen).sum > 60 then
      pyJoin "\n" (["["] ++ toml_value_items l ++ ["]"])
    else
      "[" ++ pyJoin ", " (toml_value_list l) ++ "]"

/-- The items of a multi-line TOML list, one per line with trailing comma. -/
def toml_value_items : List PyVal → List String
  | [] => []
  | v :: rest => ("    " ++ toml_value v ++ ",") :: toml_value_items rest

/-- The items of an inline TOML list. -/
def toml_value_list : List PyVal → List String
  | [] => []
  | v :: rest => toml_value v :: toml_value_list rest

end

/-! ## Recipe writer (`write_recipe_toml`) -/

/-- The lines accumulated by `write_recipe_toml` before joining with
newlines.  Mirrors the conditional `lines.append` sequence of the source:
the `[recipe]` header is always first; each optional key is emitted only
when present (and, for the sub-tables, truthy). -/
def recipe_toml_lines (r : Recipe) : List String :=
  ["[recipe]"]
  ++ (match r.name with
      | some v => ["name = " ++ toml_value (PyVal.vstr v)]
      | none => [])
  ++ (match r.python with
      | some v => ["python = " ++ toml_value (PyVal.vstr v)]
      | none => [])
  ++ (match r.description with
      | some v => ["description = " ++ toml_value (PyVal.vstr v)]
      | none => [])
  ++ [""]
  ++ (match r.deps with
      | some d =>
        if d.packages.isSome || d.pinned.isSome then
          ["[recipe.deps]"]
          ++ (match d.packages with
              | some ps =>
                if ps ≠ [] then
                  ["packages = " ++ toml_value (PyVal.vlist (ps.map PyVal.vstr))]
                else []
              | none => [])
          ++ (match d.pinned with
              | some ps =>
                if ps ≠ [] then
                  ["pinned = " ++ toml_value (PyVal.vlist (ps.map PyVal.vstr))]
                else []
              | none => [])
          ++ [""]
        else []
      | none => [])
  ++ (match r.post_install with
      | some p =>
        match p.commands with
        | some cs =>
          if cs ≠ [] then
            ["[recipe.post_install]",
             "commands = " ++ toml_value (PyVal.vlist (cs.map PyVal.vstr)), ""]
          else []
        | none => []
      | none => [])

/-- Model of `write_recipe_toml`: the text written to the recipe file
(`"\n".join(lines)`). -/
def write_recipe_toml (r : Recipe) : String :=
  pyJoin "\n" (recipe_toml_lines r)

/-! ## TOML reader (`read_recipe_toml`)

`read_recipe_toml` delegates parsing to the stdlib `tomllib` parser and then
extracts the `recipe` sub-table (or, for backward compatibility, the
top-level table).  `tomllib` is an external library, so its parsing is
modelled here on exactly the sublanguage of TOML that `write_recipe_toml`
emits for single-line values: blank lines, `#` comment lines, `[a.b]`
headers, and `key = value` lines where the value is a basic string or an
inline array of basic strings.  Any input outside this sublanguage parses
to `none`, which models a `tomllib` parse error. -/

/-- Parsed TOML values: strings, string arrays and tables. -/
inductive TVal where
  | vs (s : String)
  | varr (items : List String)
  | vtable (entries : List (String × TVal))

/-- Parse the remainder of a basic string after the opening quote; returns
the unescaped contents and the characters after the closing quote.  Only
the escapes the writer emits (`\\` and `\"`) are accepted. -/
def parseEscString : List Char → Option (String × List Char)
  | [] => none
  | '"' :: rest => some ("", rest)
  | '\\' :: c :: rest =>
    if c = '"' || c = '\\' then
      (parseEscString rest).map (fun r => (String.mk (c :: r.1.toList), r.2))
    else none
  | ['\\'] => none
  | c :: rest => (parseEscString rest).map (fun r => (String.mk (c :: r.1.toList), r.2))

/-- Parse the items of an inline array after the opening bracket; the fuel
is instantiated with the length of the input, which suffices. -/
def parseArrItems (fuel : Nat) (cs : List Char) : Option (List String) :=
  match fuel with
  | 0 => none
  | fuel + 1 =>
    let cs := cs.dropWhile (fun c => c = ' ')
    match cs with
    | ']' :: rest => if rest.dropWhile (fun c => c = ' ') = [] then some [] else none
    | '"' :: rest =>
      match parseEscString rest with
      | some (s, rest1) =>
        let rest1 := rest1.dropWhile (fun c => c = ' ')
        match rest1 with
        | ',' :: more => (parseArrItems fuel more).map (fun items => s :: items)
        | ']' :: more =>
          if more.dropWhile (fun c => c = ' ') = [] then some [s] else none
        | _ => none
      | none => none
    | _ => none

/-- Parse a (already trimmed) TOML value: basic string or inline string
array.  Multi-line strings and multi-line arrays are outside the modelled
sublanguage and yield `none`. -/
def parseTomlValue (s : String) : Option TVal :=
  match s.toList with
  | '"' :: rest =>
    match parseEscString rest with
    | some (str, []) => some (TVal.vs str)
    | _ => none
  | '[' :: rest => (parseArrItems (rest.length + 1) rest).map TVal.varr
  | _ => none

/-- Bare TOML keys: non-empty runs of alphanumerics, `_` and `-`. -/
def isBareKey (s : String) : Bool :=
  s ≠ "" && s.toList.all (fun c => c.isAlphanum || c = '_' || c = '-')

/-- One classified line of a TOML document. -/
inductive TomlLine where
  | blank
  | header (path : List String)
  | kv (key : String) (v : TVal)

/-- Classify one line of TOML text. -/
def parseTomlLine (l : String) : Option TomlLine :=
  let t := pyStrip l
  if t = "" then some TomlLine.blank
  else if pyStartsWith t "#" then some TomlLine.blank
  else
    match t.toList with
    | '[' :: rest =>
      if rest.getLast? = some ']' then
        let segs := pySplit (String.mk rest.dropLast) "."
        if segs.all isBareKey then some (TomlLine.header segs) else none
      else none
    | _ =>
      match pySplit1 t "=" with
      | [k, v] =>
        let key := pyStrip k
        if isBareKey key then
          (parseTomlValue (pyStrip v)).map (fun tv => TomlLine.kv key tv)
        else none
      | _ => none

/-- Replace the value bound to a key in a table. -/
def replaceKey (t : List (String × TVal)) (k : String) (v : TVal) :
    List (String × TVal) :=
  t.map (fun e => if e.1 = k then (k, v) else e)

/-- Insert `k ↦ v` into the sub-table of `t` at `path`, creating missing
intermediate tables; duplicate keys and non-table intermediates are errors
(as in `tomllib`). -/
def insertPath (t : List (String × TVal)) (path : List String) (k : String)
    (v : TVal) : Option (List (String × TVal)) :=
  match path with
  | [] =>
    match t.lookup k with
    | some _ => none
    | none => some (t ++ [(k, v)])
  | p :: ps =>
    match t.lookup p with
    | some (TVal.vtable sub) =>
      (insertPath sub ps k v).map (fun sub1 => replaceKey t p (TVal.vtable sub1))
    | some _ => none
    | none =>
      (insertPath [] ps k v).map (fun sub1 => t ++ [(p, TVal.vtable sub1)])

/-- Fold the classified lines into a document, tracking the current table
header path. -/
def parseTomlLines : List String → List String → List (String × TVal) →
    Option (List (String × TVal))
  | [], _, doc => some doc
  | l :: rest, path, doc =>
    match parseTomlLine l with
    | none => none
    | some TomlLine.blank => parseTomlLines rest path doc
    | some (TomlLine.header p) => parseTomlLines rest p doc
    | some (TomlLine.kv k v) =>
      match insertPath doc path k v with
      | none => none
      | some doc1 => parseTomlLines rest path doc1

/-- Parse a whole TOML document (model of `tomllib.load` on the writer's
sublanguage). -/
def parseToml (s : String) : Option (List (String × TVal)) :=
  parseTomlLines (pySplit s "\n") [] []

/-- Read an optional string field from a table; a present field of another
type is a shape error. -/
def tableGetStr (t : List (String × TVal)) (k : String) : Option (Option String) :=
  match t.lookup k with
  | none => some none
  | some (TVal.vs s) => some (some s)
  | some _ => none

/-- Read an optional string-list field from a table. -/
def tableGetStrList (t : List (String × TVal)) (k : String) :
    Option (Option (List String)) :=
  match t.lookup k with
  | none => some none
  | some (TVal.varr l) => some (some l)
  | some _ => none

/-- Convert a parsed `deps` table into the `Deps` record. -/
def tableToDeps (t : List (String × TVal)) : Option Deps := do
  let ps ← tableGetStrList t "packages"
  let pn ← tableGetStrList t "pinned"
  pure ⟨ps, pn⟩

/-- Convert a parsed `post_install` table into the `PostInstall` record. -/
def tableToPost (t : List (String × TVal)) : Option PostInstall := do
  let cs ← tableGetStrList t "commands"
  pure ⟨cs⟩

/-- Convert a parsed recipe table into the `Recipe` record. -/
def tableToRecipe (t : List (String × TVal)) : Option Recipe := do
  let n ← tableGetStr t "name"
  let py ← tableGetStr t "python"
  let d ← tableGetStr t "description"
  let deps ← match t.lookup "deps" with
    | none => pure none
    | some (TVal.vtable dt) => (tableToDeps dt).map some
    | some _ => none
  let post ← match t.lookup "post_install" with
    | none => pure none
    | some (TVal.vtable pt) => (tableToPost pt).map some
    | some _ => none
  pure ⟨n, py, d, deps, post⟩

/-- Model of `read_recipe_toml`: parse the file contents and extract the
`recipe` sub-table, falling back to the top-level table
(`data.get("recipe", data)`). -/
def read_recipe_toml (content : String) : Option Recipe := do
  let doc ← parseToml content
  let t ← match doc.lookup "recipe" with
    | some (TVal.vtable rt) => pure rt
    | some _ => none
    | none => pure doc
  tableToRecipe t

/-! ## Filesystem model and path helpers

The handlers observe and mutate the filesystem through `Path.is_file`,
`Path.is_dir`, `Path.exists`, `read_text`/`open`, `write_text` and
`shutil.rmtree`.  We model the filesystem as a finite map from path
strings to file contents plus a list of directory paths.  The base
directory for environments (`base_dir()`, resolved from the config) is
passed explicitly as a string parameter. -/

/-- Filesystem state: files with their text contents, and directories. -/
structure FS where
  files : List (String × String)
  dirs : List String
deriving DecidableEq, Repr

/-- Path join with `/` (the model runs on the POSIX branch throughout). -/
def pJoin (a b : String) : String := a ++ "/" ++ b

/-- `Path.is_file`. -/
def FS.isFile (fs : FS) (p : String) : Bool := (fs.files.lookup p).isSome

/-- File contents, when the path is a file. -/
def FS.readFile (fs : FS) (p : String) : Option String := fs.files.lookup p

/-- `Path.is_dir`. -/
def FS.isDir (fs : FS) (p : String) : Bool := fs.dirs.contains p

/-- `Path.exists`. -/
def FS.pathExists (fs : FS) (p : String) : Bool := fs.isFile p || fs.isDir p

/-- `Path.write_text`: create or overwrite a file. -/
def FS.writeFile (fs : FS) (p text : String) : FS :=
  { fs with files := (p, text) :: fs.files }

/-- `Path.mkdir`-style directory creation. -/
def FS.addDir (fs : FS) (p : String) : FS :=
  { fs with dirs := p :: fs.dirs }

/-- `shutil.rmtree`: remove a directory and everything beneath it. -/
def FS.rmtree (fs : FS) (p : String) : FS :=
  { files := fs.files.filter (fun q => !(q.1 = p || pyStartsWith q.1 (p ++ "/"))),
    dirs := fs.dirs.filter (fun d => !(d = p || pyStartsWith d (p ++ "/"))) }

/-- `os.name` for this model: the POSIX branch of the source. -/
def os_name : String := "posix"

/-- `env_dir(name)` = `base_dir() / name`. -/
def env_dir (base name : String) : String := pJoin base name

/-- `recipe_path(env_path)` = `env_path / "recipe.toml"`. -/
def recipe_path (env_path : String) : String := pJoin env_path "recipe.toml"

/-- `config_path()` = default base dir / `config.toml`. -/
def config_file_path (defaultBase : String) : String := pJoin defaultBase "config.toml"

/-! ## Environment introspection -/

/-- Model of `get_python_executable`: fixed relative interpreter path per
OS, `none` when the file is absent. -/
def get_python_executable (fs : FS) (env_path : String) : Option String :=
  let python :=
    if os_name = "nt" then pJoin (pJoin env_path "Scripts") "python.exe"
    else pJoin (pJoin env_path "bin") "python"
  if fs.isFile python then some python else none

/-- Scan the lines of `pyvenv.cfg` for the first usable `version` entry:
a stripped line starting with `version`, split once on `=`, whose value has
at least two dot-separated components; the result is `major.minor`. -/
def scanVersionLines : List String → Option String
  | [] => none
  | line :: rest =>
    if pyStartsWith (pyStrip line) "version" then
      match pySplit1 line "=" with
      | [_, v] =>
        let version := pyStrip v
        match pySplit version "." with
        | a :: b :: _ => some (a ++ "." ++ b)
        | _ => scanVersionLines rest
      | _ => scanVersionLines rest
    else scanVersionLines rest

/-- Model of `get_python_version`: read `pyvenv.cfg` inside the env and
scan it for a version line. -/
def get_python_version (fs : FS) (env_path : String) : Option String :=
  match fs.readFile (pJoin env_path "pyvenv.cfg") with
  | none => none
  | some content => scanVersionLines (pySplit content "\n")

/-- Result of the external `uv pip freeze` subprocess. -/
structure FreezeOracle where
  returncode : Int
  stdout : String
deriving Repr

/-- The package-name extraction of `get_installed_packages`: trim the line
at each version/extra delimiter in turn (`==`, `>=`, `<=`, then `>`, `<`,
`[`, `~=`), keeping the part before the first occurrence each time. -/
def extract_pkg_name (line : String) : String :=
  let name := pySplitHead (pySplitHead (pySplitHead line "==") ">=") "<="
  pySplitHead (pySplitHead (pySplitHead (pySplitHead name ">") "<") "[") "~="

/-- Whether a stripped freeze line is kept: non-empty and not a comment or
editable install (negation of the `continue` condition in the source). -/
def keep_line (line : String) : Bool :=
  !(line = "" || pyStartsWith line "#" || pyStartsWith line "-e")

/-- The freeze-output loop of `get_installed_packages`: strip each line,
skip empty/comment/editable lines, append the full line to `pinned` and
the stripped extracted name to `unpinned`. -/
def freeze_partition : List String → List String × List String
  | [] => ([], [])
  | l :: rest =>
    let line := pyStrip l
    if keep_line line then
      let r := freeze_partition rest
      (pyStrip (extract_pkg_name line) :: r.1, line :: r.2)
    else freeze_partition rest

/-- Model of `get_installed_packages`: `([], [])` when the interpreter is
missing or the freeze subprocess exits non-zero; otherwise the
partitioned lines of the stripped stdout.  Returns `(unpinned, pinned)`. -/
def get_installed_packages (fs : FS) (o : FreezeOracle) (env_path : String) :
    List String × List String :=
  match get_python_executable fs env_path with
  | none => ([], [])
  | some _ =>
    if o.returncode ≠ 0 then ([], [])
    else freeze_partition (pySplit (pyStrip o.stdout) "\n")

/-! ## `delete` -/

/-- Model of `cmd_delete`.  `input` is the interactive confirmation read
from the console: `none` models `EOFError`/`KeyboardInterrupt` during the
prompt.  Returns the exit code and the resulting filesystem. -/
def cmd_delete (base : String) (fs : FS) (input : Option String) (name : String)
    (force : Bool) : Int × FS :=
  let target := env_dir base name
  if ¬ fs.isDir target then (1, fs)
  else if ¬ force then
    match input with
    | none => (1, fs)
    | some s =>
      let confirm := pyLower (pyStrip s)
      if ¬ (confirm ∈ (["y", "yes"] : List String)) then (0, fs)
      else (0, fs.rmtree target)
  else (0, fs.rmtree target)

/-! ## `config set` -/

/-- The three recognized config settings. -/
structure Config where
  home : Option String
  shell : Option String
  editor : Option String
deriving DecidableEq, Repr

/-- The key allow-list of `cmd_config_set`. -/
def valid_config_keys : List String := ["home", "shell", "editor"]

/-- `cfg[key] = value` for a recognized key. -/
def set_config_key (cfg : Config) (key value : String) : Config :=
  if key = "home" then { cfg with home := some value }
  else if key = "shell" then { cfg with shell := some value }
  else if key = "editor" then { cfg with editor := some value }
  else cfg

/-- Model of `write_config`: the text written to the config file (header
comment, then one commented block per present setting). -/
def config_text (cfg : Config) : String :=
  pyJoin "\n" (
    ["# uvcond configuration", "# See: uvcond config --help", ""]
    ++ (match cfg.home with
        | some h => ["# Base directory for environments",
                     "home = " ++ toml_value (PyVal.vstr h), ""]
        | none => [])
    ++ (match cfg.shell with
        | some sh => ["# Default shell for \"uvcond spawn\"",
                      "# Options: pwsh, powershell, cmd (Windows) / bash, zsh, fish (Unix)",
                      "shell = " ++ toml_value (PyVal.vstr sh), ""]
        | none => [])
    ++ (match cfg.editor with
        | some e => ["# Editor for \"uvcond recipe edit\" and \"uvcond config edit\"",
                     "# Examples: code, vim, nano, notepad",
                     "editor = " ++ toml_value (PyVal.vstr e), ""]
        | none => []))

/-- Model of `cmd_config_set`.  `cfg` is the config loaded (and cached) at
process start; an unrecognized key is rejected before any write. -/
def cmd_config_set (defaultBase : String) (cfg : Config) (fs : FS)
    (key value : String) : Int × FS :=
  if ¬ (key ∈ valid_config_keys) then (1, fs)
  else (0, fs.writeFile (config_file_path defaultBase)
             (config_text (set_config_key cfg key value)))

/-! ## `recipe apply` -/

/-- External subprocess invocations made by `cmd_recipe_apply`. -/
inductive ExtCall where
  | venv (path : String) (python : Option String)
  | pipInstall (python : String) (packages : List String)
  | postCmd (cmd : String)
deriving DecidableEq, Repr

/-- Oracle for the external processes `cmd_recipe_apply` delegates to:
the exit code of `uv venv` (and whether, on success, it materializes the
interpreter inside the new env), the exit code of `uv pip install`, and
the exit code of each post-install command by 1-based position. -/
structure ApplyOracle where
  venvExit : Int
  venvCreatesPython : Bool
  installExit : Int
  postExit : Nat → Int

/-- The post-install loop: run each command through the shell, recording
the invocation, and abort at the first non-zero exit code.  `i` is the
1-based position used to consult the oracle. -/
def run_post_cmds (postExit : Nat → Int) : List String → Nat → Int × List ExtCall
  | [], _ => (0, [])
  | c :: rest, i =>
    let r := postExit i
    if r ≠ 0 then (r, [ExtCall.postCmd c])
    else
      let acc := run_post_cmds postExit rest (i + 1)
      (acc.1, ExtCall.postCmd c :: acc.2)

/-- Tail of `cmd_recipe_apply` after dependency installation: run the
post-install commands only when present and `--allow-scripts` was given
(otherwise they are skipped with a warning), then save the recipe into the
new environment and report success. -/
def apply_finish (o : ApplyOracle) (fs1 : FS) (target : String) (recipe : Recipe)
    (allow_scripts : Bool) (calls : List ExtCall) : Int × List ExtCall × FS :=
  let commands := ((recipe.post_install.getD ⟨none⟩).commands).getD []
  if commands ≠ [] ∧ allow_scripts then
    let pres := run_post_cmds o.postExit commands 1
    if pres.1 ≠ 0 then (pres.1, calls ++ pres.2, fs1)
    else (0, calls ++ pres.2,
          fs1.writeFile (recipe_path target) (write_recipe_toml recipe))
  else (0, calls, fs1.writeFile (recipe_path target) (write_recipe_toml recipe))

/-- Model of `cmd_recipe_apply`: create an environment from a recipe file.
Returns the exit code, the external invocations made, and the resulting
filesystem.  Mirrors the source's sequence: recipe file must exist and
parse; the env name comes from the `--name` flag or the recipe (error if
neither is truthy); the target must not already exist; `uv venv` is
invoked (with the recipe's Python version when truthy); then either the
pinned list (if `--pinned` and non-empty) or the unpinned list (if
non-empty) is installed; then post-install commands run (see
`apply_finish`). -/
def cmd_recipe_apply (base : String) (o : ApplyOracle) (fs : FS)
    (recipe_file : String) (name : Option String)
    (allow_scripts use_pinned : Bool) : Int × List ExtCall × FS :=
  if ¬ fs.isFile recipe_file then (1, [], fs)
  else
    match read_recipe_toml ((fs.readFile recipe_file).getD "") with
    | none => (1, [], fs)
    | some recipe =>
      let env_name? := pyOrStr name recipe.name
      if ¬ truthyStr env_name? then (1, [], fs)
      else
        let env_name := env_name?.getD ""
        let target := env_dir base env_name
        if fs.pathExists target then (1, [], fs)
        else
          let python_ver := recipe.python
          let calls0 : List ExtCall :=
            [ExtCall.venv target (if truthyStr python_ver then python_ver else none)]
          let fs1 :=
            if o.venvExit = 0 then
              if o.venvCreatesPython then
                (fs.addDir target).writeFile (pJoin (pJoin target "bin") "python") ""
              else fs.addDir target
            else fs
          if o.venvExit ≠ 0 then (o.venvExit, calls0, fs1)
          else
            let deps := recipe.deps.getD ⟨none, none⟩
            let packages_to_install :=
              if use_pinned ∧ deps.pinned.getD [] ≠ [] then deps.pinned.getD []
              else if deps.packages.getD [] ≠ [] then deps.packages.getD []
              else []
            if packages_to_install ≠ [] then
              match get_python_executable fs1 target with
              | none => (1, calls0, fs1)
              | some py =>
                let calls1 := calls0 ++ [ExtCall.pipInstall py packages_to_install]
                if o.installExit ≠ 0 then (o.installExit, calls1, fs1)
                else apply_finish o fs1 target recipe allow_scripts calls1
            else apply_finish o fs1 target recipe allow_scripts calls0

/-- The package lists passed to the external install tool within a call
trace. -/
def installs (calls : List ExtCall) : List (List String) :=
  calls.filterMap (fun c => match c with
    | ExtCall.pipInstall _ pkgs => some pkgs
    | _ => none)

/-! ## `recipe export` -/

/-- The `deps` table assembled by export and by the recipe-synthesis code:
present only when at least one list is non-empty, with each non-empty list
under its key. -/
def export_deps (unpinned pinned : List String) : Option Deps :=
  if unpinned ≠ [] ∨ pinned ≠ [] then
    some ⟨if unpinned ≠ [] then some unpinned else none,
          if pinned ≠ [] then some pinned else none⟩
  else none

/-- The post-install preservation step of `cmd_recipe_export`: when a
recipe already exists at the env's default recipe path and parses with a
truthy `post_install.commands`, its `post_install` table is carried over;
a parse error (`none` from the reader) is silently ignored, as is an
absent or empty command list. -/
def preserved_post (fs : FS) (rpath : String) : Option PostInstall :=
  if fs.isFile rpath then
    match read_recipe_toml ((fs.readFile rpath).getD "") with
    | some existing =>
      match existing.post_install with
      | some pi =>
        match pi.commands with
        | some cs => if cs ≠ [] then some pi else none
        | none => none
      | none => none
    | none => none
  else none

/-- Model of `cmd_recipe_export`: requires the env to exist and its Python
version to resolve; gathers installed packages; preserves existing
post-install commands (see `preserved_post`); writes the recipe to
`--output` when truthy, else to the env's own recipe path. -/
def cmd_recipe_export (base : String) (o : FreezeOracle) (fs : FS)
    (name : String) (output : Option String) : Int × FS :=
  let target := env_dir base name
  if ¬ fs.isDir target then (1, fs)
  else
    let python_ver := get_python_version fs target
    if ¬ truthyStr python_ver then (1, fs)
    else
      let pkgs := get_installed_packages fs o target
      let rpath := recipe_path target
      let recipe : Recipe :=
        { name := some name, python := python_ver, description := none,
          deps := export_deps pkgs.1 pkgs.2,
          post_install := preserved_post fs rpath }
      let out_path := if truthyStr output then output.getD "" else rpath
      (0, fs.writeFile out_path (write_recipe_toml recipe))

/-! ## `recipe post` -/

/-- The recipe synthesized from live env state when an env has no recipe
file yet (shared by `cmd_recipe_edit_post` and `cmd_recipe_describe`). -/
def synth_recipe (fs : FS) (o : FreezeOracle) (name target : String) : Recipe :=
  let pv := get_python_version fs target
  let pkgs := get_installed_packages fs o target
  { name := some name,
    python := if truthyStr pv then pv else none,
    description := none,
    deps := export_deps pkgs.1 pkgs.2,
    post_install := none }

/-- Model of `cmd_recipe_edit_post`: load the env's recipe (or synthesize
one from live state), then append to or replace its post-install command
list and rewrite the file.  A recipe file that fails to parse aborts with
a non-zero exit (the uncaught parse exception in the source). -/
def cmd_recipe_edit_post (base : String) (fs : FS) (o : FreezeOracle)
    (name : String) (commands : List String) (append : Bool) : Int × FS :=
  let target := env_dir base name
  if ¬ fs.isDir target then (1, fs)
  else
    let rpath := recipe_path target
    let recipe? :=
      if fs.isFile rpath then read_recipe_toml ((fs.readFile rpath).getD "")
      else some (synth_recipe fs o name target)
    match recipe? with
    | none => (1, fs)
    | some recipe =>
      let existing := ((recipe.post_install.getD ⟨none⟩).commands).getD []
      let newCmds := if append then existing ++ commands else commands
      let recipe1 := { recipe with post_install := some ⟨some newCmds⟩ }
      (0, fs.writeFile rpath (write_recipe_toml recipe1))

/-- The flag-scanning loop of the `post` branch of `cmd_recipe`: `--add`
appends its argument and marks append mode, `--set` appends its argument
and marks replace mode, `--from` records a file; the mode is whatever the
last `--add`/`--set` set (initially append). -/
def recipe_post_loop : List String → List String → Bool → Option String →
    List String × Bool × Option String
  | [], cmds, app, ff => (cmds, app, ff)
  | "--add" :: x :: rest, cmds, _, ff => recipe_post_loop rest (cmds ++ [x]) true ff
  | "--set" :: x :: rest, cmds, _, ff => recipe_post_loop rest (cmds ++ [x]) false ff
  | "--from" :: x :: rest, cmds, app, _ => recipe_post_loop rest cmds app (some x)
  | _ :: rest, cmds, app, ff => recipe_post_loop rest cmds app ff

/-- Model of the `post` branch of `cmd_recipe` (`recipe post <name> ...`):
scan the flags, optionally load further commands from `--from` (non-blank,
non-comment lines), require at least one command, then delegate to
`cmd_recipe_edit_post`. -/
def cmd_recipe_post (base : String) (fs : FS) (o : FreezeOracle)
    (rest : List String) : Int × FS :=
  match rest with
  | [] => (1, fs)
  | name :: rest1 =>
    let parsed := recipe_post_loop rest1 [] true none
    let loaded : Option (List String) :=
      match parsed.2.2 with
      | none => some parsed.1
      | some ff =>
        if ¬ fs.isFile ff then none
        else
          let fileCmds :=
            ((pySplit ((fs.readFile ff).getD "") "\n").map pyStrip).filter
              (fun l => l ≠ "" ∧ ¬ pyStartsWith l "#")
          if fileCmds = [] then none
          else some (parsed.1 ++ fileCmds)
    match loaded with
    | none => (1, fs)
    | some cmds =>
      if cmds = [] then (1, fs)
      else cmd_recipe_edit_post base fs o name cmds parsed.2.1

/-! ## The top-level dispatcher (`main`) -/

/-- Output channels of the two consoles. -/
inductive Chan where
  | stdout
  | stderr
deriving DecidableEq, Repr

/-- Model of `cmd_help`: prints the usage text (elided here) to the
standard console and returns 0. -/
def cmd_help : Int × List Chan := (0, [Chan.stdout])

/-- The handler `main` delegates to, with the arguments it extracts from
`argv`.  `usageError` stands for the missing-argument branches, which
print a usage line to the error console and return 1.  The
`describe <name>`-without-text branch calls `cmd_info` directly, so it
maps to `info`. -/
inductive Dispatch where
  | help
  | usageError (cmd : String)
  | list
  | create (name : String) (extra : List String)
  | path (name : String)
  | delete (name : String) (force : Bool)
  | spawn (name : String) (shell : Option String)
  | recipe (args : List String)
  | config (args : List String)
  | describe (name : String) (description : String)
  | info (name : String)
deriving DecidableEq, Repr

/-- Model of the argument dispatch in `main` (lines 1151-1209): which
handler is invoked, with which arguments, for a given `argv`.  Unmatched
first tokens fall through to the final `return cmd_help()`. -/
def mainDispatch (argv : List String) : Dispatch :=
  match argv with
  | [] => Dispatch.help
  | sub :: rest =>
    if sub ∈ (["help", "--help", "-h"] : List String) then Dispatch.help
    else if sub = "list" then Dispatch.list
    else if sub ∈ (["create", "mk"] : List String) then
      match rest with
      | [] => Dispatch.usageError "create"
      | n :: extra => Dispatch.create n extra
    else if sub = "path" then
      match rest with
      | [] => Dispatch.usageError "path"
      | n :: _ => Dispatch.path n
    else if sub ∈ (["delete", "rm"] : List String) then
      match rest with
      | [] => Dispatch.usageError "delete"
      | n :: _ => Dispatch.delete n (rest.contains "--force" || rest.contains "-f")
    else if sub ∈ (["spawn", "shell"] : List String) then
      match rest with
      | [] => Dispatch.usageError "spawn"
      | n :: _ => Dispatch.spawn n rest[1]?
    else if sub = "recipe" then Dispatch.recipe rest
    else if sub = "config" then Dispatch.config rest
    else if sub = "describe" then
      match rest with
      | [] => Dispatch.usageError "describe"
      | [n] => Dispatch.info n
      | n :: d => Dispatch.describe n (pyJoin " " d)
    else if sub = "info" then
      match rest with
      | [] => Dispatch.usageError "info"
      | n :: _ => Dispatch.info n
    else Dispatch.help

/-- The first tokens `main` recognizes (every branch guard of the
dispatcher). -/
def recognized_subcommands : List String :=
  ["help", "--help", "-h", "list", "create", "mk", "path", "delete", "rm",
   "spawn", "shell", "recipe", "config", "describe", "info"]

/-! ## Helper lemmas -/

/-- Filtering by a predicate that rejects `a` leaves a list that does not
contain `a`. -/
theorem filter_not_contains (p : String → Bool) (a : String) (hp : p a = false)
    (l : List String) : (l.filter p).contains a = false := by
  have hmem : a ∉ l.filter p := by
    intro h
    have := List.of_mem_filter h
    rw [hp] at this
    exact Bool.false_ne_true this
  exact Bool.eq_false_iff.mpr (fun h => hmem (List.mem_of_elem_eq_true h))

/-- `installs` distributes over call-trace concatenation. -/
theorem installs_append (a b : List ExtCall) :
    installs (a ++ b) = installs a ++ installs b := by
  simp [installs]

/-- The post-install loop only emits shell-command invocations, never
install invocations. -/
theorem installs_run_post (f : Nat → Int) (cmds : List String) (i : Nat) :
    installs (run_post_cmds f cmds i).2 = [] := by
  induction cmds generalizing i with
  | nil => rfl
  | cons c rest ih =>
    simp only [run_post_cmds]
    by_cases h : f i ≠ 0
    · simp [h, installs]
    · simp only [if_neg h]
      have h2 := ih (i + 1)
      simp only [installs, List.filterMap_eq_nil_iff] at h2 ⊢
      intro a ha
      rcases List.mem_cons.mp ha with heq | hmem
      · subst heq; rfl
      · exact h2 a hmem

/-- `installs` on an empty trace. -/
theorem installs_nil : installs [] = [] := rfl

/-- `installs` skips venv-creation invocations. -/
theorem installs_venv (p : String) (py : Option String) (l : List ExtCall) :
    installs (ExtCall.venv p py :: l) = installs l := rfl

/-- `installs` skips shell-command invocations. -/
theorem installs_postCmd (c : String) (l : List ExtCall) :
    installs (ExtCall.postCmd c :: l) = installs l := rfl

/-- `installs` collects install invocations. -/
theorem installs_pipInstall (py : String) (pkgs : List String) (l : List ExtCall) :
    installs (ExtCall.pipInstall py pkgs :: l) = pkgs :: installs l := rfl

/-- `apply_finish` never adds install invocations to the call trace. -/
theorem installs_apply_finish (o : ApplyOracle) (fs1 : FS) (target : String)
    (recipe : Recipe) (as : Bool) (calls : List ExtCall) :
    installs (apply_finish o fs1 target recipe as calls).2.1 = installs calls := by
  simp only [apply_finish]
  split
  · split
    · simp [installs_append, installs_run_post]
    · simp [installs_append, installs_run_post]
  · rfl

/-! ## Concrete fixtures -/

/-- The concrete recipe record of the round-trip claim. -/
def fooRecipe : Recipe :=
  { name := some "foo", python := some "3.11", description := none,
    deps := some ⟨some ["a", "b"], some ["a==1.0", "b==2.0"]⟩,
    post_install := some ⟨some ["echo hi"]⟩ }

/-! ## Claim theorems -/

set_option maxRecDepth 200000

/-- C1: writing the recipe `{name: "foo", python: "3.11",
deps.packages: ["a","b"], deps.pinned: ["a==1.0","b==2.0"],
post_install.commands: ["echo hi"]}` with `write_recipe_toml` and reading
it back with `read_recipe_toml` reproduces exactly the same field values;
and for every recipe, the written file opens with the `[recipe]` table
header. -/
theorem recipe_roundtrip_foo :
    read_recipe_toml (write_recipe_toml fooRecipe) = some fooRecipe ∧
    ∀ r : Recipe, "[recipe]" ∈ recipe_toml_lines r := by
  refine ⟨by decide, ?_⟩
  intro r
  simp [recipe_toml_lines]

/-- Witness for C1: the `[recipe]` header is present for the concrete
round-trip recipe. -/
theorem recipe_roundtrip_foo_witness : "[recipe]" ∈ recipe_toml_lines fooRecipe :=
  recipe_roundtrip_foo.2 fooRecipe

/-- C3 (counterexample): on the unrecognized first token `"frobnicate"`,
`main` does not print an error and return 1; it falls through to
`cmd_help`, which prints the usage text to standard output and returns
exit code 0. -/
theorem unknown_subcommand_counterexample :
    mainDispatch ["frobnicate"] = Dispatch.help ∧ cmd_help = (0, [Chan.stdout]) := by
  decide

/-- C3 (amended): for every argv whose first token is not a recognized
subcommand or alias, the dispatcher falls through to the general help
handler, which prints the usage text to standard output and returns exit
code 0. -/
theorem unknown_subcommand_shows_help (sub : String) (rest : List String)
    (h : sub ∉ recognized_subcommands) :
    mainDispatch (sub :: rest) = Dispatch.help ∧ cmd_help = (0, [Chan.stdout]) := by
  refine ⟨?_, rfl⟩
  simp only [recognized_subcommands, List.mem_cons, List.not_mem_nil, or_false,
    not_or] at h
  obtain ⟨h1, h2, h3, h4, h5, h6, h7, h8, h9, h10, h11, h12, h13, h14, h15⟩ := h
  simp [mainDispatch, h1, h2, h3, h4, h5, h6, h7, h8, h9, h10, h11, h12, h13,
    h14, h15]

/-- Witness for C3 (amended): instantiated at the unrecognized token
`"frobnicate2"`. -/
theorem unknown_subcommand_shows_help_witness :
    mainDispatch ["frobnicate2"] = Dispatch.help ∧ cmd_help = (0, [Chan.stdout]) :=
  unknown_subcommand_shows_help "frobnicate2" [] (by decide)

/-- C5: `get_installed_packages` returns two empty lists when the freeze
subprocess exits non-zero; otherwise each stripped, kept line (non-empty,
not starting with `#` or `-e`) contributes the full line to the pinned
list and the stripped delimiter-truncated name to the unpinned list; on
`"requests==2.31.0"` the extracted name is `"requests"` and on
`"pkg[extra]>=1.0"` it is `"pkg"`. -/
theorem get_installed_packages_spec (fs : FS) (o : FreezeOracle) (p : String)
    (h : o.returncode ≠ 0) :
    get_installed_packages fs o p = ([], []) ∧
    (∀ ls : List String, freeze_partition ls =
      (((ls.map pyStrip).filter keep_line).map (fun l => pyStrip (extract_pkg_name l)),
       (ls.map pyStrip).filter keep_line)) ∧
    extract_pkg_name "requests==2.31.0" = "requests" ∧
    extract_pkg_name "pkg[extra]>=1.0" = "pkg" ∧
    freeze_partition ["requests==2.31.0", "pkg[extra]>=1.0"] =
      (["requests", "pkg"], ["requests==2.31.0", "pkg[extra]>=1.0"]) := by
  refine ⟨?_, ?_, by decide, by decide, by decide⟩
  · unfold get_installed_packages
    cases get_python_executable fs p with
    | none => rfl
    | some _ => simp [h]
  · intro ls
    induction ls with
    | nil => rfl
    | cons l rest ih =>
      by_cases hc : keep_line (pyStrip l) = true
      · simp [freeze_partition, List.filter_cons, hc, ih]
      · simp only [Bool.not_eq_true] at hc
        simp [freeze_partition, List.filter_cons, hc, ih]

/-- Witness for C5: a failing freeze subprocess yields two empty lists. -/
theorem get_installed_packages_spec_witness :
    get_installed_packages ⟨[], []⟩ ⟨1, "x"⟩ "/b/e" = ([], []) :=
  (get_installed_packages_spec ⟨[], []⟩ ⟨1, "x"⟩ "/b/e" (by decide)).1

/-- C10: `describe <name>` with no description text dispatches to the same
handler call as `info <name>` (so it prints the environment info with
info's exit code, not a usage error), while `describe <name> <text...>`
joins the remaining arguments with single spaces into one description
string. -/
theorem describe_without_text_is_info (n d : String) (ds : List String) :
    mainDispatch ["describe", n] = Dispatch.info n ∧
    mainDispatch ["info", n] = Dispatch.info n ∧
    mainDispatch ("describe" :: n :: d :: ds) =
      Dispatch.describe n (pyJoin " " (d :: ds)) := by
  refine ⟨rfl, rfl, rfl⟩

/-- Witness for C10: instantiated at `describe foo` and
`describe foo a b`. -/
theorem describe_without_text_is_info_witness :
    mainDispatch ["describe", "foo"] = Dispatch.info "foo" ∧
    mainDispatch ["info", "foo"] = Dispatch.info "foo" ∧
    mainDispatch ["describe", "foo", "a", "b"] =
      Dispatch.describe "foo" (pyJoin " " ["a", "b"]) :=
  describe_without_text_is_info "foo" "a" ["b"]

/-- C4: `delete <name>` without `--force` on an existing environment:
a confirmation input whose stripped, lowercased form is `y` or `yes`
removes the directory tree and exits 0 (the target directory is gone
afterwards); any other input leaves the filesystem unchanged with exit 0;
EOF or keyboard interrupt during the prompt leaves it unchanged with
exit 1. -/
theorem delete_confirmation (base : String) (fs : FS) (name sYes sNo : String)
    (hdir : fs.isDir (env_dir base name) = true)
    (hy : pyLower (pyStrip sYes) = "y" ∨ pyLower (pyStrip sYes) = "yes")
    (hn1 : pyLower (pyStrip sNo) ≠ "y") (hn2 : pyLower (pyStrip sNo) ≠ "yes") :
    cmd_delete base fs (some sYes) name false =
      (0, fs.rmtree (env_dir base name)) ∧
    (fs.rmtree (env_dir base name)).isDir (env_dir base name) = false ∧
    cmd_delete base fs (some sNo) name false = (0, fs) ∧
    cmd_delete base fs none name false = (1, fs) := by
  refine ⟨?_, ?_, ?_, ?_⟩
  · rcases hy with hy | hy <;> simp [cmd_delete, hdir, hy]
  · exact filter_not_contains _ _ (by simp) fs.dirs
  · simp [cmd_delete, hdir, hn1, hn2]
  · simp [cmd_delete, hdir]

/-- Witness for C4: a concrete environment directory, confirmed with
`"y"`, declined with `"n"`, and interrupted. -/
theorem delete_confirmation_witness :
    cmd_delete "/b" ⟨[], ["/b/e"]⟩ (some "y") "e" false =
      (0, FS.rmtree ⟨[], ["/b/e"]⟩ (env_dir "/b" "e")) ∧
    (FS.rmtree ⟨[], ["/b/e"]⟩ (env_dir "/b" "e")).isDir (env_dir "/b" "e") = false ∧
    cmd_delete "/b" ⟨[], ["/b/e"]⟩ (some "n") "e" false = (0, ⟨[], ["/b/e"]⟩) ∧
    cmd_delete "/b" ⟨[], ["/b/e"]⟩ none "e" false = (1, ⟨[], ["/b/e"]⟩) :=
  delete_confirmation "/b" ⟨[], ["/b/e"]⟩ "e" "y" "n" (by decide)
    (Or.inl (by decide)) (by decide) (by decide)

/-- C6: `config set` with a key outside the allow-list
`{home, shell, editor}` returns exit code 1 with the filesystem (hence the
config file) unchanged; with a key in the allow-list it writes the updated
config serialization and returns 0. -/
theorem config_set_allowlist (defaultBase : String) (cfg : Config) (fs : FS)
    (key1 key2 value : String)
    (h1 : key1 ∉ valid_config_keys) (h2 : key2 ∈ valid_config_keys) :
    cmd_config_set defaultBase cfg fs key1 value = (1, fs) ∧
    cmd_config_set defaultBase cfg fs key2 value =
      (0, fs.writeFile (config_file_path defaultBase)
            (config_text (set_config_key cfg key2 value))) := by
  constructor
  · simp [cmd_config_set, h1]
  · simp [cmd_config_set, h2]

/-- Witness for C6: key `"bogus"` is rejected without a write, key
`"home"` is accepted and written. -/
theorem config_set_allowlist_witness :
    cmd_config_set "/d" ⟨none, none, none⟩ ⟨[], []⟩ "bogus" "v" = (1, ⟨[], []⟩) ∧
    cmd_config_set "/d" ⟨none, none, none⟩ ⟨[], []⟩ "home" "v" =
      (0, FS.writeFile ⟨[], []⟩ (config_file_path "/d")
            (config_text (set_config_key ⟨none, none, none⟩ "home" "v"))) :=
  config_set_allowlist "/d" ⟨none, none, none⟩ ⟨[], []⟩ "bogus" "home" "v"
    (by decide) (by decide)

/-- C7: on a recipe whose stored post-install command list is `["x"]`,
`recipe post <name> --add y` rewrites the recipe with commands
`["x", "y"]` while `--set y` rewrites it with `["y"]`; and the
append-versus-replace mode of the flag loop is whatever flag kind was
seen last. -/
theorem recipe_post_add_set (base : String) (fs : FS) (o : FreezeOracle)
    (name c : String) (r : Recipe)
    (hdir : fs.isDir (env_dir base name) = true)
    (hfile : fs.readFile (recipe_path (env_dir base name)) = some c)
    (hread : read_recipe_toml c = some r)
    (hcmds : ((r.post_install.getD ⟨none⟩).commands).getD [] = ["x"]) :
    cmd_recipe_post base fs o [name, "--add", "y"] =
      (0, fs.writeFile (recipe_path (env_dir base name))
            (write_recipe_toml { r with post_install := some ⟨some ["x", "y"]⟩ })) ∧
    cmd_recipe_post base fs o [name, "--set", "y"] =
      (0, fs.writeFile (recipe_path (env_dir base name))
            (write_recipe_toml { r with post_install := some ⟨some ["y"]⟩ })) ∧
    recipe_post_loop ["--add", "a", "--set", "b"] [] true none =
      (["a", "b"], false, none) ∧
    recipe_post_loop ["--set", "a", "--add", "b"] [] true none =
      (["a", "b"], true, none) := by
  have hl : List.lookup (recipe_path (env_dir base name)) fs.files = some c := hfile
  have hisfile : fs.isFile (recipe_path (env_dir base name)) = true := by
    simp [FS.isFile, hl]
  refine ⟨?_, ?_, by decide, by decide⟩
  · simp [cmd_recipe_post, recipe_post_loop, cmd_recipe_edit_post, hdir, hisfile,
      FS.readFile, hl, hread, hcmds]
  · simp [cmd_recipe_post, recipe_post_loop, cmd_recipe_edit_post, hdir, hisfile,
      FS.readFile, hl, hread, hcmds]

/-- C2: when the recipe file exists and parses, and the resolved target
name (from the `--name` flag or the recipe's own `name` field) denotes an
environment path that already exists, `recipe apply` returns exit code 1
with no external invocation and an unchanged filesystem. -/
theorem apply_existing_env (base : String) (o : ApplyOracle) (fs : FS)
    (rfile c en : String) (name : Option String) (r : Recipe) (as up : Bool)
    (hfile : fs.readFile rfile = some c)
    (hread : read_recipe_toml c = some r)
    (hname : pyOrStr name r.name = some en)
    (hen : en ≠ "")
    (hexists : fs.pathExists (env_dir base en) = true) :
    cmd_recipe_apply base o fs rfile name as up = (1, [], fs) := by
  have hl : List.lookup rfile fs.files = some c := hfile
  have hisfile : fs.isFile rfile = true := by simp [FS.isFile, hl]
  have htr : truthyStr (pyOrStr name r.name) = true := by
    rw [hname]; simp [truthyStr, hen]
  simp [cmd_recipe_apply, hisfile, FS.readFile, hl, hread, hname, htr, hexists]

/-- Witness for C2: applying a recipe whose name resolves to an already
existing environment directory. -/
theorem apply_existing_env_witness :
    cmd_recipe_apply "/b" ⟨0, true, 0, fun _ => 0⟩
      ⟨[("r.toml", write_recipe_toml fooRecipe)], ["/b/foo"]⟩
      "r.toml" none false false =
      (1, [], ⟨[("r.toml", write_recipe_toml fooRecipe)], ["/b/foo"]⟩) :=
  apply_existing_env "/b" ⟨0, true, 0, fun _ => 0⟩
    ⟨[("r.toml", write_recipe_toml fooRecipe)], ["/b/foo"]⟩
    "r.toml" (write_recipe_toml fooRecipe) "foo" none fooRecipe false false
    (by decide) (by decide) (by decide) (by decide) (by decide)

/-- C8: under a successful `uv venv` creation that materializes the
interpreter, the install tool receives the recipe's pinned list exactly
when `--pinned` was given and that list is non-empty, else the unpinned
package list exactly when it is non-empty, and is not invoked at all when
both are empty or absent. -/
theorem apply_install_selection (base : String) (o : ApplyOracle) (fs : FS)
    (rfile c en : String) (name : Option String) (r : Recipe) (as up : Bool)
    (hfile : fs.readFile rfile = some c)
    (hread : read_recipe_toml c = some r)
    (hname : pyOrStr name r.name = some en)
    (hen : en ≠ "")
    (hnotex : fs.pathExists (env_dir base en) = false)
    (hv : o.venvExit = 0) (hc : o.venvCreatesPython = true) :
    installs (cmd_recipe_apply base o fs rfile name as up).2.1 =
      (if up ∧ (r.deps.getD ⟨none, none⟩).pinned.getD [] ≠ [] then
        [(r.deps.getD ⟨none, none⟩).pinned.getD []]
      else if (r.deps.getD ⟨none, none⟩).packages.getD [] ≠ [] then
        [(r.deps.getD ⟨none, none⟩).packages.getD []]
      else []) := by
  have hl : List.lookup rfile fs.files = some c := hfile
  have hisfile : fs.isFile rfile = true := by simp [FS.isFile, hl]
  have htr : truthyStr (pyOrStr name r.name) = true := by
    rw [hname]; simp [truthyStr, hen]
  have hgpe : get_python_executable
      ((fs.addDir (env_dir base en)).writeFile
        (pJoin (pJoin (env_dir base en) "bin") "python") "") (env_dir base en) =
      some (pJoin (pJoin (env_dir base en) "bin") "python") := by
    simp [get_python_executable, os_name, FS.isFile, FS.writeFile, FS.addDir,
      List.lookup]
  have hte : truthyStr (some en) = true := by simp [truthyStr, hen]
  by_cases h1 : up ∧ (r.deps.getD ⟨none, none⟩).pinned.getD [] ≠ []
  · by_cases hi : o.installExit ≠ 0
    · simp [cmd_recipe_apply, hisfile, FS.readFile, hl, hread, hname, htr, hte,
        hnotex, hv, hc, hgpe, h1.1, h1.2, hi, installs_apply_finish,
        installs_venv, installs_pipInstall, installs_nil]
    · simp [cmd_recipe_apply, hisfile, FS.readFile, hl, hread, hname, htr, hte,
        hnotex, hv, hc, hgpe, h1.1, h1.2, hi, installs_apply_finish,
        installs_venv, installs_pipInstall, installs_nil]
  · by_cases h2 : (r.deps.getD ⟨none, none⟩).packages.getD [] ≠ []
    · by_cases hi : o.installExit ≠ 0
      · simp [cmd_recipe_apply, hisfile, FS.readFile, hl, hread, hname, htr,
          hte, hnotex, hv, hc, hgpe, h1, h2, hi, installs_apply_finish,
          installs_venv, installs_pipInstall, installs_nil]
      · simp [cmd_recipe_apply, hisfile, FS.readFile, hl, hread, hname, htr,
          hte, hnotex, hv, hc, hgpe, h1, h2, hi, installs_apply_finish,
          installs_venv, installs_pipInstall, installs_nil]
    · simp [cmd_recipe_apply, hisfile, FS.readFile, hl, hread, hname, htr, hte,
        hnotex, hv, hc, hgpe, h1, h2, installs_apply_finish,
        installs_venv, installs_pipInstall, installs_nil]

/-- Witness for C8: applying the round-trip recipe with `--pinned` passes
exactly its pinned list to the install tool. -/
theorem apply_install_selection_witness :
    installs (cmd_recipe_apply "/b" ⟨0, true, 0, fun _ => 0⟩
      ⟨[("r.toml", write_recipe_toml fooRecipe)], []⟩
      "r.toml" none false true).2.1 = [["a==1.0", "b==2.0"]] := by
  have h := apply_install_selection "/b" ⟨0, true, 0, fun _ => 0⟩
    ⟨[("r.toml", write_recipe_toml fooRecipe)], []⟩
    "r.toml" (write_recipe_toml fooRecipe) "foo" none fooRecipe false true
    (by decide) (by decide) (by decide) (by decide) (by decide) (by decide)
    (by decide)
  rw [h]
  decide

/-- C9: `recipe export` on an environment whose Python version resolves:
when the existing recipe at the default location fails to parse, the error
is silently ignored and export still succeeds with exit code 0 (writing a
recipe with no post-install table); when it parses with a non-empty
post-install command list, that `post_install` table is carried into the
newly written recipe even when `--output` directs the write elsewhere. -/
theorem export_preserves_post (base : String) (o : FreezeOracle) (nm : String)
    (out : String) (fs1 fs2 : FS) (pv1 pv2 c1 c2 : String) (ex : Recipe)
    (pi : PostInstall) (cs : List String)
    (h1d : fs1.isDir (env_dir base nm) = true)
    (h1v : get_python_version fs1 (env_dir base nm) = some pv1)
    (h1t : pv1 ≠ "")
    (h1f : fs1.readFile (recipe_path (env_dir base nm)) = some c1)
    (h1p : read_recipe_toml c1 = none)
    (h2d : fs2.isDir (env_dir base nm) = true)
    (h2v : get_python_version fs2 (env_dir base nm) = some pv2)
    (h2t : pv2 ≠ "")
    (h2f : fs2.readFile (recipe_path (env_dir base nm)) = some c2)
    (h2p : read_recipe_toml c2 = some ex)
    (h2pi : ex.post_install = some pi)
    (h2cs : pi.commands = some cs)
    (h2ne : cs ≠ [])
    (hout : out ≠ "") :
    cmd_recipe_export base o fs1 nm (some out) =
      (0, fs1.writeFile out (write_recipe_toml
        { name := some nm, python := some pv1, description := none,
          deps := export_deps
            (get_installed_packages fs1 o (env_dir base nm)).1
            (get_installed_packages fs1 o (env_dir base nm)).2,
          post_install := none })) ∧
    cmd_recipe_export base o fs2 nm (some out) =
      (0, fs2.writeFile out (write_recipe_toml
        { name := some nm, python := some pv2, description := none,
          deps := export_deps
            (get_installed_packages fs2 o (env_dir base nm)).1
            (get_installed_packages fs2 o (env_dir base nm)).2,
          post_install := some pi })) := by
  have hl1 : List.lookup (recipe_path (env_dir base nm)) fs1.files = some c1 := h1f
  have hif1 : fs1.isFile (recipe_path (env_dir base nm)) = true := by
    simp [FS.isFile, hl1]
  have hpp1 : preserved_post fs1 (recipe_path (env_dir base nm)) = none := by
    simp [preserved_post, hif1, FS.readFile, hl1, h1p]
  have hl2 : List.lookup (recipe_path (env_dir base nm)) fs2.files = some c2 := h2f
  have hif2 : fs2.isFile (recipe_path (env_dir base nm)) = true := by
    simp [FS.isFile, hl2]
  have hpp2 : preserved_post fs2 (recipe_path (env_dir base nm)) = some pi := by
    simp [preserved_post, hif2, FS.readFile, hl2, h2p, h2pi, h2cs, h2ne]
  have ht1 : truthyStr (get_python_version fs1 (env_dir base nm)) = true := by
    rw [h1v]; simp [truthyStr, h1t]
  have ht2 : truthyStr (get_python_version fs2 (env_dir base nm)) = true := by
    rw [h2v]; simp [truthyStr, h2t]
  have hto : truthyStr (some out) = true := by simp [truthyStr, hout]
  constructor
  · simp [cmd_recipe_export, h1d, ht1, h1v, hpp1, hto]
    simp [truthyStr, h1t]
  · simp [cmd_recipe_export, h2d, ht2, h2v, hpp2, hto]
    simp [truthyStr, h2t]

/-- The recipe fixture with post-install commands used by the export
witness. -/
def postRecipe : Recipe :=
  { name := some "foo", python := some "3.11", description := none,
    deps := none, post_install := some ⟨some ["echo hi"]⟩ }

/-- Witness for C9: one concrete environment whose stored recipe is
unparseable TOML and one whose stored recipe carries a command. -/
theorem export_preserves_post_witness :
    cmd_recipe_export "/b" ⟨0, ""⟩
      ⟨[("/b/foo/pyvenv.cfg", "version = 3.11.5"),
        ("/b/foo/recipe.toml", "not a recipe :::")], ["/b/foo"]⟩
      "foo" (some "/tmp/out.toml") =
      (0, FS.writeFile
        ⟨[("/b/foo/pyvenv.cfg", "version = 3.11.5"),
          ("/b/foo/recipe.toml", "not a recipe :::")], ["/b/foo"]⟩
        "/tmp/out.toml" (write_recipe_toml
          { name := some "foo", python := some "3.11", description := none,
            deps := export_deps
              (get_installed_packages
                ⟨[("/b/foo/pyvenv.cfg", "version = 3.11.5"),
                  ("/b/foo/recipe.toml", "not a recipe :::")], ["/b/foo"]⟩
                ⟨0, ""⟩ (env_dir "/b" "foo")).1
              (get_installed_packages
                ⟨[("/b/foo/pyvenv.cfg", "version = 3.11.5"),
                  ("/b/foo/recipe.toml", "not a recipe :::")], ["/b/foo"]⟩
                ⟨0, ""⟩ (env_dir "/b" "foo")).2,
            post_install := none })) ∧
    cmd_recipe_export "/b" ⟨0, ""⟩
      ⟨[("/b/foo/pyvenv.cfg", "version = 3.11.5"),
        ("/b/foo/recipe.toml", write_recipe_toml postRecipe)], ["/b/foo"]⟩
      "foo" (some "/tmp/out.toml") =
      (0, FS.writeFile
        ⟨[("/b/foo/pyvenv.cfg", "version = 3.11.5"),
          ("/b/foo/recipe.toml", write_recipe_toml postRecipe)], ["/b/foo"]⟩
        "/tmp/out.toml" (write_recipe_toml
          { name := some "foo", python := some "3.11", description := none,
            deps := export_deps
              (get_installed_packages
                ⟨[("/b/foo/pyvenv.cfg", "version = 3.11.5"),
                  ("/b/foo/recipe.toml", write_recipe_toml postRecipe)], ["/b/foo"]⟩
                ⟨0, ""⟩ (env_dir "/b" "foo")).1
              (get_installed_packages
                ⟨[("/b/foo/pyvenv.cfg", "version = 3.11.5"),
                  ("/b/foo/recipe.toml", write_recipe_toml postRecipe)], ["/b/foo"]⟩
                ⟨0, ""⟩ (env_dir "/b" "foo")).2,
            post_install := some ⟨some ["echo hi"]⟩ })) :=
  export_preserves_post "/b" ⟨0, ""⟩ "foo" "/tmp/out.toml"
    ⟨[("/b/foo/pyvenv.cfg", "version = 3.11.5"),
      ("/b/foo/recipe.toml", "not a recipe :::")], ["/b/foo"]⟩
    ⟨[("/b/foo/pyvenv.cfg", "version = 3.11.5"),
      ("/b/foo/recipe.toml", write_recipe_toml postRecipe)], ["/b/foo"]⟩
    "3.11" "3.11" "not a recipe :::" (write_recipe_toml postRecipe)
    postRecipe ⟨some ["echo hi"]⟩ ["echo hi"]
    (by decide) (by decide) (by decide) (by decide) (by decide)
    (by decide) (by decide) (by decide) (by decide) (by decide)
    (by decide) (by decide) (by decide) (by decide)

/-- The single-command recipe fixture used by the `recipe post` witness. -/
def xRecipe : Recipe :=
  { name := some "e", python := none, description := none,
    deps := none, post_install := some ⟨some ["x"]⟩ }

/-- Witness for C7: a concrete environment whose recipe holds `["x"]`,
updated with `--add y` and with `--set y`. -/
theorem recipe_post_add_set_witness :
    cmd_recipe_post "/b" ⟨[("/b/e/recipe.toml", write_recipe_toml xRecipe)], ["/b/e"]⟩
      ⟨0, ""⟩ ["e", "--add", "y"] =
      (0, FS.writeFile ⟨[("/b/e/recipe.toml", write_recipe_toml xRecipe)], ["/b/e"]⟩
            (recipe_path (env_dir "/b" "e"))
            (write_recipe_toml { xRecipe with post_install := some ⟨some ["x", "y"]⟩ })) ∧
    cmd_recipe_post "/b" ⟨[("/b/e/recipe.toml", write_recipe_toml xRecipe)], ["/b/e"]⟩
      ⟨0, ""⟩ ["e", "--set", "y"] =
      (0, FS.writeFile ⟨[("/b/e/recipe.toml", write_recipe_toml xRecipe)], ["/b/e"]⟩
            (recipe_path (env_dir "/b" "e"))
            (write_recipe_toml { xRecipe with post_install := some ⟨some ["y"]⟩ })) ∧
    recipe_post_loop ["--add", "a", "--set", "b"] [] true none =
      (["a", "b"], false, none) ∧
    recipe_post_loop ["--set", "a", "--add", "b"] [] true none =
      (["a", "b"], true, none) :=
  recipe_post_add_set "/b" ⟨[("/b/e/recipe.toml", write_recipe_toml xRecipe)], ["/b/e"]⟩
    ⟨0, ""⟩ "e" (write_recipe_toml xRecipe) xRecipe
    (by decide) (by decide) (by decide) (by decide)
